import Mathlib

/-!
Shallow embedding of the Claire video generator (src/app.py): a single-file
pipeline that turns a script string plus an avatar image into a talking-head
video by calling a TTS provider and an avatar-video provider over HTTP.
Network responses are modelled by an explicit environment of response
functions; every outgoing network request is recorded as a `Call` event so
that ordering and short-circuit properties can be stated about the trace.
-/

namespace ClaireVideo

/-- Binary payloads (file contents, HTTP bodies) as byte lists. -/
abbrev Bytes := List Nat

/-- An HTTP response: a numeric status code and a parsed body. -/
structure HttpResponse (α : Type) where
  status : Nat
  body : α
deriving DecidableEq

/-- `requests.Response.raise_for_status` raises for 4xx and 5xx codes. -/
def httpErr (s : Nat) : Bool := decide (400 ≤ s) && decide (s < 600)

/-- Embeds `get_secret` (src/app.py lines 15-20): try the Streamlit secret
store, on any failure fall back to `os.environ.get`.  Both stores are
modelled as partial maps from key to value. -/
def get_secret (secrets envVars : String → Option String) (key : String) :
    Option String :=
  match secrets key with
  | some v => some v
  | none => envVars key

/-- Python `str.split(sep)` for a single-character separator, on char lists:
always returns a non-empty list of (possibly empty) fragments. -/
def splitOnChar (c : Char) : List Char → List (List Char)
  | [] => [[]]
  | x :: xs =>
    let r := splitOnChar c xs
    if x = c then [] :: r
    else
      match r with
      | [] => [[x]]
      | y :: ys => (x :: y) :: ys

/-- The lowercased final `.`-separated fragment of a filename: Python
`filename.lower().split('.')[-1]` (src/app.py line 90). -/
def ext_of (filename : String) : String :=
  String.mk ((splitOnChar '.' (filename.toList.map Char.toLower)).getLastD [])

/-- The static suffix table of `get_mime_type` (src/app.py lines 91-97). -/
def mime_types : List (String × String) :=
  [("png", "image/png"), ("jpg", "image/jpeg"), ("jpeg", "image/jpeg"),
   ("mp3", "audio/mpeg"), ("wav", "audio/wav")]

/-- Embeds `get_mime_type` (src/app.py lines 88-98). -/
def get_mime_type (filename : String) : String :=
  (mime_types.lookup (ext_of filename)).getD "application/octet-stream"

/-- A user-supplied avatar upload: raw bytes plus the original filename. -/
structure Upload where
  bytes : Bytes
  name : String
deriving DecidableEq

/-- The radio widget at src/app.py lines 154-158: default avatar or own image. -/
inductive AvatarOption where
  | useDefault
  | uploadOwn
deriving DecidableEq

/-- Lines 160-166: `uploaded_image` is `None` unless the user picked
"Upload your own image", in which case it is the file-uploader value. -/
def uploaded_image (opt : AvatarOption) (file : Option Upload) : Option Upload :=
  match opt with
  | .useDefault => none
  | .uploadOwn => file

/-- Body of a poll response for a talk job (src/app.py line 139): a status
string, the result URL (read only when status is `done`) and an optional
error payload (read with default `Unknown error`). -/
structure TalkStatus where
  status : String
  result_url : String
  errPayload : Option String
deriving DecidableEq

/-- The failure modes the pipeline can raise: a `raise_for_status` HTTP
failure, a provider-reported talk error (line 144), or the polling timeout
(line 146). -/
inductive Err where
  | http (status : Nat)
  | didError (payload : String)
  | timeout
deriving DecidableEq

/-- One outgoing network request of the pipeline, recorded in order. -/
inductive Call where
  | synth (text : String)
  | upload (endpoint field filename mime : String) (bytes : Bytes)
  | createTalk (image_url audio_url : String)
  | pollTalk (talk_id : String) (attempt : Nat)
  | download (url : String)
deriving DecidableEq

/-- The world outside the program: the bundled default avatar file and the
response each provider endpoint would return to a given request.  Poll
responses may additionally depend on the attempt number. -/
structure Env where
  defaultAvatarBytes : Bytes
  humeResp : String → HttpResponse Bytes
  didUploadResp : String → String → String → String → Bytes → HttpResponse String
  createTalkResp : String → String → HttpResponse String
  pollResp : String → Nat → HttpResponse TalkStatus
  downloadResp : String → HttpResponse Bytes

/-- Lines 197-203: the bytes handed to the image upload — the caller's bytes
when an image was uploaded, else the bundled `chef-avatar.png` file. -/
def avatar_bytes (env : Env) (up : Option Upload) : Bytes :=
  match up with
  | some u => u.bytes
  | none => env.defaultAvatarBytes

/-- Lines 199 and 203: the filename handed to the image upload. -/
def avatar_name (up : Option Upload) : String :=
  match up with
  | some u => u.name
  | none => "avatar.png"

/-- The response to the TTS request of `generate_audio` (lines 69-86). -/
def synth_resp (env : Env) (script : String) : HttpResponse Bytes :=
  env.humeResp script

/-- The response to the avatar image upload of `upload_to_did`
(lines 100-109 as called at 199/203). -/
def image_upload_resp (env : Env) (up : Option Upload) : HttpResponse String :=
  env.didUploadResp "images" "image" (avatar_name up)
    (get_mime_type (avatar_name up)) (avatar_bytes env up)

/-- The response to the audio upload of `upload_to_did` (line 208). -/
def audio_upload_resp (env : Env) (script : String) : HttpResponse String :=
  env.didUploadResp "audios" "audio" "speech.mp3" (get_mime_type "speech.mp3")
    (synth_resp env script).body

/-- Embeds the poll loop of `create_video` (src/app.py lines 132-146):
up to `fuel` further fetches of the talk status, starting at attempt
number `i`; returns the outcome together with the polls performed.
`done` returns the result URL, `error` raises the provider payload,
any other status keeps polling; exhausting the fuel raises the timeout. -/
def pollLoop (env : Env) (tid : String) (i : Nat) : Nat → Except Err String × List Call
  | 0 => (.error .timeout, [])
  | fuel + 1 =>
    let r := env.pollResp tid i
    if httpErr r.status then (.error (.http r.status), [.pollTalk tid i])
    else if r.body.status = "done" then (.ok r.body.result_url, [.pollTalk tid i])
    else if r.body.status = "error" then
      (.error (.didError (r.body.errPayload.getD "Unknown error")), [.pollTalk tid i])
    else
      let rest := pollLoop env tid (i + 1) fuel
      (rest.1, .pollTalk tid i :: rest.2)

/-- Embeds `create_video` (src/app.py lines 111-146): submit the talk, then
poll at most 60 times. -/
def create_video (env : Env) (image_url audio_url : String) :
    Except Err String × List Call :=
  let r := env.createTalkResp image_url audio_url
  if httpErr r.status then (.error (.http r.status), [.createTalk image_url audio_url])
  else
    let p := pollLoop env r.body 0 60
    (p.1, .createTalk image_url audio_url :: p.2)

/-- Embeds the body of the generate button handler (src/app.py lines
188-220): synthesize audio, resolve and upload the avatar image, upload the
audio, create the talk video, then download the result URL.  Every
`raise_for_status` failure aborts the remaining steps; the final download
performs no status check (lines 219-220). -/
def image_call (env : Env) (up : Option Upload) : Call :=
  .upload "images" "image" (avatar_name up) (get_mime_type (avatar_name up))
    (avatar_bytes env up)

def audio_call (env : Env) (script : String) : Call :=
  .upload "audios" "audio" "speech.mp3" (get_mime_type "speech.mp3")
    (synth_resp env script).body

def run_pipeline (env : Env) (script : String) (up : Option Upload) :
    Except Err Bytes × List Call :=
  let rS := synth_resp env script
  if httpErr rS.status then (.error (.http rS.status), [.synth script])
  else
    let rI := image_upload_resp env up
    if httpErr rI.status then
      (.error (.http rI.status), [.synth script, image_call env up])
    else
      let rA := audio_upload_resp env script
      if httpErr rA.status then
        (.error (.http rA.status),
         [.synth script, image_call env up, audio_call env script])
      else
        match create_video env rI.body rA.body with
        | (.error e, tc) =>
          (.error e, .synth script :: image_call env up :: audio_call env script :: tc)
        | (.ok u, tc) =>
          (.ok (env.downloadResp u).body,
           .synth script :: image_call env up :: audio_call env script ::
             (tc ++ [.download u]))

/-- Line 181: the generate button is enabled only when the script is
non-empty and an avatar source is effectively available. -/
def can_generate (script : String) (opt : AvatarOption) (up : Option Upload) :
    Bool :=
  script.length != 0 &&
    (opt == AvatarOption.useDefault || up.isSome)

/-- Outcome of one press of the generate button. -/
inductive Outcome where
  | notRun
  | validationError
  | failure (e : Err)
  | success (bytes : Bytes)
deriving DecidableEq

/-- Embeds the generate button (src/app.py lines 184-220): disabled unless
`can_generate`; a script over 1000 characters is a validation error shown
before any network call; otherwise the pipeline runs. -/
def handle_generate (env : Env) (script : String) (opt : AvatarOption)
    (file : Option Upload) : Outcome × List Call :=
  let up := uploaded_image opt file
  if !(can_generate script opt up) then (.notRun, [])
  else if script.length > 1000 then (.validationError, [])
  else
    match run_pipeline env script up with
    | (.ok b, t) => (.success b, t)
    | (.error e, t) => (.failure e, t)

/-! Concrete provider stubs used to exhibit each behaviour on an input. -/

def doneStatus : TalkStatus := ⟨"done", "http://result.mp4", none⟩

def pendingStatus : TalkStatus := ⟨"created", "", none⟩

def errorStatus : TalkStatus := ⟨"error", "", some "bad face"⟩

def okEnv : Env where
  defaultAvatarBytes := [1, 2, 3]
  humeResp := fun _ => ⟨200, [7, 7]⟩
  didUploadResp := fun endpoint _ _ _ _ =>
    ⟨201, if endpoint = "images" then "http://img" else "http://aud"⟩
  createTalkResp := fun _ _ => ⟨201, "talk1"⟩
  pollResp := fun _ _ => ⟨200, doneStatus⟩
  downloadResp := fun _ => ⟨200, [9, 9, 9]⟩

def pendingEnv : Env := { okEnv with pollResp := fun _ _ => ⟨200, pendingStatus⟩ }

def errorEnv : Env := { okEnv with pollResp := fun _ _ => ⟨200, errorStatus⟩ }

def synthFailEnv : Env := { okEnv with humeResp := fun _ => ⟨500, []⟩ }

def dlFailEnv : Env := { okEnv with downloadResp := fun _ => ⟨404, [0]⟩ }

/-! General lemmas about the poll loop. -/

/-- The poll trace never exceeds the remaining fuel. -/
lemma pollLoop_length_le (env : Env) (tid : String) :
    ∀ (fuel i : Nat), (pollLoop env tid i fuel).2.length ≤ fuel
  | 0, _ => by simp [pollLoop]
  | fuel + 1, i => by
    have ih := pollLoop_length_le env tid fuel (i + 1)
    simp only [pollLoop]
    split
    · simp
    · split
      · simp
      · split
        · simp
        · simpa using Nat.succ_le_succ ih

/-- If every attempt in the window is an HTTP success with a non-terminal
status, the loop exhausts its fuel polling every attempt, then times out. -/
lemma pollLoop_timeout_of_nonterminal (env : Env) (tid : String) :
    ∀ (fuel i : Nat),
      (∀ n, i ≤ n → n < i + fuel →
        httpErr (env.pollResp tid n).status = false ∧
        (env.pollResp tid n).body.status ≠ "done" ∧
        (env.pollResp tid n).body.status ≠ "error") →
      pollLoop env tid i fuel =
        (.error .timeout, (List.range' i fuel).map (Call.pollTalk tid))
  | 0, i, _ => by simp [pollLoop]
  | fuel + 1, i, h => by
    obtain ⟨h1, h2, h3⟩ := h i (Nat.le_refl i) (by omega)
    have ih := pollLoop_timeout_of_nonterminal env tid fuel (i + 1)
      (fun n hn1 hn2 => h n (by omega) (by omega))
    simp [pollLoop, h1, h2, h3, ih, List.range']

/-! Lemmas about lowercasing and dot-free splitting, for the MIME claims. -/

lemma ofNat_add32_ne_dot (n : Nat) (h1 : 65 ≤ n) (h2 : n ≤ 90) :
    Char.ofNat (n + 32) ≠ '.' := by
  interval_cases n <;> decide

lemma toLower_ne_dot (c : Char) (h : c ≠ '.') : Char.toLower c ≠ '.' := by
  by_cases hc : c.toNat ≥ 65 ∧ c.toNat ≤ 90
  · simpa [Char.toLower, hc] using ofNat_add32_ne_dot c.toNat hc.1 hc.2
  · simpa [Char.toLower, hc] using h

lemma splitOnChar_eq_single (c : Char) :
    ∀ l : List Char, (∀ x ∈ l, x ≠ c) → splitOnChar c l = [l]
  | [], _ => rfl
  | x :: xs, h => by
    have hx : x ≠ c := h x (by simp)
    have ih := splitOnChar_eq_single c xs (fun y hy => h y (by simp [hy]))
    simp [splitOnChar, hx, ih]

/-- C7: `get_mime_type` maps the filename's lowercased final suffix through
the static table (`png`, `jpg`, `jpeg`, `mp3`, `wav`), case-insensitively,
and every suffix outside the table yields `application/octet-stream`. -/
theorem mime_suffix_table :
    get_mime_type "avatar.PNG" = "image/png" ∧
    get_mime_type "speech.mp3" = "audio/mpeg" ∧
    get_mime_type "file.xyz" = "application/octet-stream" ∧
    get_mime_type "photo.JpG" = "image/jpeg" ∧
    get_mime_type "a.jpeg" = "image/jpeg" ∧
    get_mime_type "s.WAV" = "audio/wav" ∧
    get_mime_type "x.png" = "image/png" ∧
    (∀ fn m, mime_types.lookup (ext_of fn) = some m → get_mime_type fn = m) ∧
    (∀ fn, mime_types.lookup (ext_of fn) = none →
      get_mime_type fn = "application/octet-stream") := by
  refine ⟨by decide, by decide, by decide, by decide, by decide, by decide,
    by decide, ?_, ?_⟩
  · intro fn m h
    simp [get_mime_type, h]
  · intro fn h
    simp [get_mime_type, h]

/-- Witness for C7: the table clauses applied at concrete filenames. -/
theorem mime_suffix_table_witness :
    (mime_types.lookup (ext_of "clip.Wav") = some "audio/wav" ∧
      get_mime_type "clip.Wav" = "audio/wav") ∧
    (mime_types.lookup (ext_of "notes.txt") = none ∧
      get_mime_type "notes.txt" = "application/octet-stream") :=
  ⟨⟨by decide, mime_suffix_table.2.2.2.2.2.2.2.1 "clip.Wav" "audio/wav" (by decide)⟩,
   ⟨by decide, mime_suffix_table.2.2.2.2.2.2.2.2 "notes.txt" (by decide)⟩⟩

/-- C8: `get_secret` returns the structured secret-store value when present,
otherwise the environment value, and `none` when both are absent. -/
theorem get_secret_layered_lookup (secrets envVars : String → Option String)
    (key : String) :
    (∀ v, secrets key = some v → get_secret secrets envVars key = some v) ∧
    (secrets key = none → get_secret secrets envVars key = envVars key) ∧
    (secrets key = none → envVars key = none →
      get_secret secrets envVars key = none) := by
  refine ⟨?_, ?_, ?_⟩
  · intro v h
    simp [get_secret, h]
  · intro h
    simp [get_secret, h]
  · intro h1 h2
    simp [get_secret, h1, h2]

/-- Witness for C8: a two-entry secret store over a one-entry environment. -/
theorem get_secret_layered_lookup_witness :
    (let secrets := fun k => if k = "HUME_API_KEY" then some "s1" else none
     let envVars := fun k => if k = "DID_API_KEY" then some "e1" else none
     get_secret secrets envVars "HUME_API_KEY" = some "s1" ∧
     get_secret secrets envVars "DID_API_KEY" = some "e1" ∧
     get_secret secrets envVars "OTHER" = none) := by
  refine ⟨?_, ?_, ?_⟩
  · exact (get_secret_layered_lookup _ _ "HUME_API_KEY").1 "s1" (by decide)
  · exact ((get_secret_layered_lookup _ _ "DID_API_KEY").2.1 (by decide)).trans (by decide)
  · exact (get_secret_layered_lookup _ _ "OTHER").2.2 (by decide) (by decide)

/-- C10 counterexample: the dotless filename `mp3` is not `png`, yet it does
not map to `application/octet-stream` — the whole lowercased name is looked
up in the table, so every dotless table key hits its table value. -/
theorem dotless_mime_counterexample :
    ("mp3".toList.all (fun c => c != '.')) = true ∧
    "mp3" ≠ "png" ∧
    get_mime_type "mp3" ≠ "application/octet-stream" ∧
    get_mime_type "mp3" = "audio/mpeg" := by
  refine ⟨by decide, by decide, by decide, by decide⟩

/-- C10 amended: `get_mime_type` is total, and for a filename containing no
`.` the entire lowercased filename is looked up in the suffix table — `png`
yields `image/png`, and a dotless name outside the table yields
`application/octet-stream`. -/
theorem dotless_mime_amended (fn : String) (h : ∀ c ∈ fn.toList, c ≠ '.') :
    get_mime_type fn =
      (mime_types.lookup (String.mk (fn.toList.map Char.toLower))).getD
        "application/octet-stream" ∧
    get_mime_type "png" = "image/png" ∧
    get_mime_type "claire" = "application/octet-stream" := by
  refine ⟨?_, by decide, by decide⟩
  have hmap : ∀ x ∈ fn.toList.map Char.toLower, x ≠ '.' := by
    intro x hx
    obtain ⟨c, hc, rfl⟩ := List.mem_map.mp hx
    exact toLower_ne_dot c (h c hc)
  have hsplit := splitOnChar_eq_single '.' (fn.toList.map Char.toLower) hmap
  simp only [String.toList] at hsplit
  simp [get_mime_type, ext_of, String.toList, hsplit]

/-- Witness for C10's amended claim, at the dotless filename `mp3`. -/
theorem dotless_mime_amended_witness :
    (∀ c ∈ "mp3".toList, c ≠ '.') ∧
    get_mime_type "mp3" =
      (mime_types.lookup (String.mk ("mp3".toList.map Char.toLower))).getD
        "application/octet-stream" :=
  ⟨by decide, (dotless_mime_amended "mp3" (by decide)).1⟩

/-- C1: against a provider that never reports a terminal status, the poll
loop performs exactly 60 status fetches and then raises the timeout failure
(the point where attempt 61 would begin); no run ever performs more than 60
fetches, and the timeout failure is distinct from every provider-reported
error. -/
theorem poll_timeout_after_sixty (env : Env) (tid : String)
    (h : ∀ n, n < 60 →
      httpErr (env.pollResp tid n).status = false ∧
      (env.pollResp tid n).body.status ≠ "done" ∧
      (env.pollResp tid n).body.status ≠ "error") :
    pollLoop env tid 0 60 =
      (.error .timeout, (List.range' 0 60).map (Call.pollTalk tid)) ∧
    ((List.range' 0 60).map (Call.pollTalk tid)).length = 60 ∧
    (∀ (env2 : Env) (tid2 : String) (i fuel : Nat),
      (pollLoop env2 tid2 i fuel).2.length ≤ fuel) ∧
    (∀ s, (Err.timeout : Err) ≠ Err.didError s) ∧
    (∀ iu au, httpErr (env.createTalkResp iu au).status = false →
      (env.createTalkResp iu au).body = tid →
      create_video env iu au =
        (.error .timeout,
         .createTalk iu au :: (List.range' 0 60).map (Call.pollTalk tid))) := by
  have hp := pollLoop_timeout_of_nonterminal env tid 60 0
    (fun n _ hn2 => h n (by omega))
  refine ⟨hp, by simp, fun env2 tid2 i fuel => pollLoop_length_le env2 tid2 fuel i,
    by simp, ?_⟩
  intro iu au hok hid
  simp [create_video, hok, hid, hp]

/-- Witness for C1: a provider stub that always answers `created`. -/
theorem poll_timeout_after_sixty_witness :
    (∀ n, n < 60 →
      httpErr (pendingEnv.pollResp "talk1" n).status = false ∧
      (pendingEnv.pollResp "talk1" n).body.status ≠ "done" ∧
      (pendingEnv.pollResp "talk1" n).body.status ≠ "error") ∧
    pollLoop pendingEnv "talk1" 0 60 =
      (.error .timeout, (List.range' 0 60).map (Call.pollTalk "talk1")) :=
  ⟨by decide, (poll_timeout_after_sixty pendingEnv "talk1" (by decide)).1⟩

/-- C4: a poll answering `error` on the first attempt makes the loop stop
after that single fetch and fail with the provider's error payload, and
`create_video` propagates exactly that failure. -/
theorem poll_error_short_circuits (env : Env) (tid : String)
    (h1 : httpErr (env.pollResp tid 0).status = false)
    (h2 : (env.pollResp tid 0).body.status = "error") :
    pollLoop env tid 0 60 =
      (.error (.didError ((env.pollResp tid 0).body.errPayload.getD "Unknown error")),
       [.pollTalk tid 0]) ∧
    (∀ iu au, httpErr (env.createTalkResp iu au).status = false →
      (env.createTalkResp iu au).body = tid →
      create_video env iu au =
        (.error (.didError ((env.pollResp tid 0).body.errPayload.getD "Unknown error")),
         [.createTalk iu au, .pollTalk tid 0])) := by
  have hp : pollLoop env tid 0 60 =
      (.error (.didError ((env.pollResp tid 0).body.errPayload.getD "Unknown error")),
       [.pollTalk tid 0]) := by
    simp [pollLoop, h1, h2]
  refine ⟨hp, ?_⟩
  intro iu au hok hid
  simp [create_video, hok, hid, hp]

/-- Witness for C4: a provider stub whose first poll reports `error`. -/
theorem poll_error_short_circuits_witness :
    httpErr (errorEnv.pollResp "talk1" 0).status = false ∧
    (errorEnv.pollResp "talk1" 0).body.status = "error" ∧
    create_video errorEnv "http://img" "http://aud" =
      (.error (.didError ((errorEnv.pollResp "talk1" 0).body.errPayload.getD "Unknown error")),
       [.createTalk "http://img" "http://aud", .pollTalk "talk1" 0]) :=
  ⟨by decide, by decide,
   (poll_error_short_circuits errorEnv "talk1" (by decide) rfl).2
     "http://img" "http://aud" (by decide) rfl⟩

/-- C5: a poll answering `done` makes the orchestrator return exactly the
reported `result_url` after that fetch, and the driver then downloads that
URL and returns that response's bytes. -/
theorem poll_done_returns_url (env : Env) (tid : String)
    (h1 : httpErr (env.pollResp tid 0).status = false)
    (h2 : (env.pollResp tid 0).body.status = "done") :
    pollLoop env tid 0 60 =
      (.ok (env.pollResp tid 0).body.result_url, [.pollTalk tid 0]) ∧
    (∀ script up u tc,
      httpErr (synth_resp env script).status = false →
      httpErr (image_upload_resp env up).status = false →
      httpErr (audio_upload_resp env script).status = false →
      create_video env (image_upload_resp env up).body
        (audio_upload_resp env script).body = (.ok u, tc) →
      run_pipeline env script up =
        (.ok (env.downloadResp u).body,
         .synth script :: image_call env up :: audio_call env script ::
           (tc ++ [.download u]))) := by
  refine ⟨by simp [pollLoop, h1, h2], ?_⟩
  intro script up u tc hS hI hA hcv
  simp [run_pipeline, hS, hI, hA, hcv]

/-- Witness for C5: the all-success stub, end to end. -/
theorem poll_done_returns_url_witness :
    httpErr (okEnv.pollResp "talk1" 0).status = false ∧
    (okEnv.pollResp "talk1" 0).body.status = "done" ∧
    pollLoop okEnv "talk1" 0 60 =
      (.ok (okEnv.pollResp "talk1" 0).body.result_url, [.pollTalk "talk1" 0]) ∧
    run_pipeline okEnv "hi" none =
      (.ok (okEnv.downloadResp "http://result.mp4").body,
       .synth "hi" :: image_call okEnv none :: audio_call okEnv "hi" ::
         ([.createTalk "http://img" "http://aud", .pollTalk "talk1" 0] ++
           [.download "http://result.mp4"])) :=
  ⟨by decide, rfl,
   (poll_done_returns_url okEnv "talk1" (by decide) rfl).1,
   (poll_done_returns_url okEnv "talk1" (by decide) rfl).2 "hi" none
     "http://result.mp4" [.createTalk "http://img" "http://aud", .pollTalk "talk1" 0]
     (by decide) (by decide) (by decide) rfl⟩

/-- C2: the pipeline performs synthesize, avatar resolution and image
upload, audio upload, talk creation with polling, and the final download,
in that order, each step's output feeding the next; the failure of any step
produces exactly the trace up to that step, so no later network call ever
happens after an earlier step fails. -/
theorem pipeline_step_sequence (env : Env) (script : String) (up : Option Upload) :
    (httpErr (synth_resp env script).status = true →
      run_pipeline env script up =
        (.error (.http (synth_resp env script).status), [.synth script])) ∧
    (httpErr (synth_resp env script).status = false →
      httpErr (image_upload_resp env up).status = true →
      run_pipeline env script up =
        (.error (.http (image_upload_resp env up).status),
         [.synth script, image_call env up])) ∧
    (httpErr (synth_resp env script).status = false →
      httpErr (image_upload_resp env up).status = false →
      httpErr (audio_upload_resp env script).status = true →
      run_pipeline env script up =
        (.error (.http (audio_upload_resp env script).status),
         [.synth script, image_call env up, audio_call env script])) ∧
    (httpErr (synth_resp env script).status = false →
      httpErr (image_upload_resp env up).status = false →
      httpErr (audio_upload_resp env script).status = false →
      (∀ e tc, create_video env (image_upload_resp env up).body
          (audio_upload_resp env script).body = (.error e, tc) →
        run_pipeline env script up =
          (.error e,
           .synth script :: image_call env up :: audio_call env script :: tc)) ∧
      (∀ u tc, create_video env (image_upload_resp env up).body
          (audio_upload_resp env script).body = (.ok u, tc) →
        run_pipeline env script up =
          (.ok (env.downloadResp u).body,
           .synth script :: image_call env up :: audio_call env script ::
             (tc ++ [.download u])))) := by
  refine ⟨?_, ?_, ?_, ?_⟩
  · intro hS
    simp [run_pipeline, hS]
  · intro hS hI
    simp [run_pipeline, hS, hI]
  · intro hS hI hA
    simp [run_pipeline, hS, hI, hA]
  · intro hS hI hA
    constructor
    · intro e tc hcv
      simp [run_pipeline, hS, hI, hA, hcv]
    · intro u tc hcv
      simp [run_pipeline, hS, hI, hA, hcv]

/-- Witness for C2: a failing synthesizer stops the pipeline after the one
synthesis call, and the all-success stub runs every step in order. -/
theorem pipeline_step_sequence_witness :
    (httpErr (synth_resp synthFailEnv "hi").status = true ∧
      run_pipeline synthFailEnv "hi" none =
        (.error (.http (synth_resp synthFailEnv "hi").status), [.synth "hi"])) ∧
    run_pipeline okEnv "hi" none =
      (.ok (okEnv.downloadResp "http://result.mp4").body,
       .synth "hi" :: image_call okEnv none :: audio_call okEnv "hi" ::
         ([.createTalk "http://img" "http://aud", .pollTalk "talk1" 0] ++
           [.download "http://result.mp4"])) :=
  ⟨⟨by decide, (pipeline_step_sequence synthFailEnv "hi" none).1 (by decide)⟩,
   ((pipeline_step_sequence okEnv "hi" none).2.2.2 (by decide) (by decide)
     (by decide)).2 "http://result.mp4"
     [.createTalk "http://img" "http://aud", .pollTalk "talk1" 0] rfl⟩

/-- C3: an empty script leaves the generate button disabled and an
over-length script is rejected by validation, both with an empty network
trace; a script of length 1 to 1000 with an avatar source available passes
validation and the pipeline's network calls run. -/
theorem script_validation_gate (env : Env) (script : String)
    (opt : AvatarOption) (file : Option Upload) :
    (script.length = 0 → handle_generate env script opt file = (.notRun, [])) ∧
    (script.length > 1000 →
      (handle_generate env script opt file).2 = [] ∧
      ((handle_generate env script opt file).1 = Outcome.validationError ∨
       (handle_generate env script opt file).1 = Outcome.notRun)) ∧
    (1 ≤ script.length → script.length ≤ 1000 →
      (opt = AvatarOption.useDefault ∨ (uploaded_image opt file).isSome = true) →
      (handle_generate env script opt file).1 ≠ Outcome.notRun ∧
      (handle_generate env script opt file).1 ≠ Outcome.validationError ∧
      (handle_generate env script opt file).2 =
        (run_pipeline env script (uploaded_image opt file)).2) := by
  refine ⟨?_, ?_, ?_⟩
  · intro h
    simp [handle_generate, can_generate, h]
  · intro h
    by_cases hc : can_generate script opt (uploaded_image opt file) = true
    · simp [handle_generate, hc, h]
    · simp only [Bool.not_eq_true] at hc
      simp [handle_generate, hc]
  · intro h1 h2 h3
    have hcg : can_generate script opt (uploaded_image opt file) = true := by
      rcases h3 with h3 | h3
      · simp [can_generate, h3]
        omega
      · simp [can_generate, h3]
        omega
    have hlen : ¬(script.length > 1000) := by omega
    rcases hr : run_pipeline env script (uploaded_image opt file) with ⟨res, t⟩
    rcases res with e | b <;> simp [handle_generate, hcg, hlen, hr]

/-- Witness for C3: the two-character script `hi` with the default avatar
passes validation on the all-success stub. -/
theorem script_validation_gate_witness :
    (1 ≤ ("hi" : String).length ∧ ("hi" : String).length ≤ 1000) ∧
    (handle_generate okEnv "hi" AvatarOption.useDefault none).1 ≠ Outcome.notRun ∧
    (handle_generate okEnv "hi" AvatarOption.useDefault none).1 ≠ Outcome.validationError ∧
    (handle_generate okEnv "hi" AvatarOption.useDefault none).2 =
      (run_pipeline okEnv "hi" (uploaded_image AvatarOption.useDefault none)).2 :=
  ⟨⟨by decide, by decide⟩,
   (script_validation_gate okEnv "hi" AvatarOption.useDefault none).2.2
     (by decide) (by decide) (Or.inl rfl)⟩

/-- C6: the two avatar sources are mutually exclusive and exhaustive; with
the default source selected the image upload carries exactly the bundled
asset bytes under the fixed name `avatar.png`, and with a custom upload it
carries exactly the caller's bytes and filename — and whenever synthesis
succeeds, the image upload call with precisely those bytes is the second
network call of the pipeline. -/
theorem avatar_source_dispatch (env : Env) :
    (∀ file, uploaded_image AvatarOption.useDefault file = none) ∧
    (avatar_bytes env none = env.defaultAvatarBytes ∧
      avatar_name none = "avatar.png") ∧
    (∀ u : Upload, uploaded_image AvatarOption.uploadOwn (some u) = some u ∧
      avatar_bytes env (some u) = u.bytes ∧ avatar_name (some u) = u.name) ∧
    (∀ opt : AvatarOption,
      opt = AvatarOption.useDefault ∨ opt = AvatarOption.uploadOwn) ∧
    AvatarOption.useDefault ≠ AvatarOption.uploadOwn ∧
    (∀ script up, httpErr (synth_resp env script).status = false →
      ∃ rest, (run_pipeline env script up).2 =
        Call.synth script :: image_call env up :: rest) := by
  refine ⟨fun file => rfl, ⟨rfl, rfl⟩, fun u => ⟨rfl, rfl, rfl⟩,
    fun opt => by cases opt <;> simp, by simp, ?_⟩
  intro script up hS
  by_cases hI : httpErr (image_upload_resp env up).status = true
  · exact ⟨[], by simp [run_pipeline, hS, hI]⟩
  · simp only [Bool.not_eq_true] at hI
    by_cases hA : httpErr (audio_upload_resp env script).status = true
    · exact ⟨[audio_call env script], by simp [run_pipeline, hS, hI, hA]⟩
    · simp only [Bool.not_eq_true] at hA
      rcases hcv : create_video env (image_upload_resp env up).body
          (audio_upload_resp env script).body with ⟨res, tc⟩
      rcases res with e | u
      · exact ⟨audio_call env script :: tc,
          by simp [run_pipeline, hS, hI, hA, hcv]⟩
      · exact ⟨audio_call env script :: (tc ++ [.download u]),
          by simp [run_pipeline, hS, hI, hA, hcv]⟩

/-- Witness for C6: a custom upload's bytes and name reach the image call. -/
theorem avatar_source_dispatch_witness :
    httpErr (synth_resp okEnv "hi").status = false ∧
    (∃ rest, (run_pipeline okEnv "hi" (some ⟨[5], "me.jpg"⟩)).2 =
      Call.synth "hi" :: image_call okEnv (some ⟨[5], "me.jpg"⟩) :: rest) ∧
    image_call okEnv (some ⟨[5], "me.jpg"⟩) =
      Call.upload "images" "image" "me.jpg" "image/jpeg" [5] :=
  ⟨by decide,
   (avatar_source_dispatch okEnv).2.2.2.2.2 "hi" (some ⟨[5], "me.jpg"⟩) (by decide),
   by decide⟩

/-- C9: the final download is returned to the caller without any HTTP
status check — even a 4xx/5xx download response yields its body as the
video bytes — while synthesis, the two uploads, talk creation and polling
each fail on a non-success status. -/
theorem download_skips_status_check (env : Env) :
    (∀ script up u tc,
      httpErr (synth_resp env script).status = false →
      httpErr (image_upload_resp env up).status = false →
      httpErr (audio_upload_resp env script).status = false →
      create_video env (image_upload_resp env up).body
        (audio_upload_resp env script).body = (.ok u, tc) →
      httpErr (env.downloadResp u).status = true →
      (run_pipeline env script up).1 = .ok (env.downloadResp u).body) ∧
    (∀ script up, httpErr (synth_resp env script).status = true →
      (run_pipeline env script up).1 =
        .error (.http (synth_resp env script).status)) ∧
    (∀ script up, httpErr (synth_resp env script).status = false →
      httpErr (image_upload_resp env up).status = true →
      (run_pipeline env script up).1 =
        .error (.http (image_upload_resp env up).status)) ∧
    (∀ script up, httpErr (synth_resp env script).status = false →
      httpErr (image_upload_resp env up).status = false →
      httpErr (audio_upload_resp env script).status = true →
      (run_pipeline env script up).1 =
        .error (.http (audio_upload_resp env script).status)) ∧
    (∀ iu au, httpErr (env.createTalkResp iu au).status = true →
      (create_video env iu au).1 =
        .error (.http (env.createTalkResp iu au).status)) ∧
    (∀ tid i fuel, httpErr (env.pollResp tid i).status = true →
      (pollLoop env tid i (fuel + 1)).1 =
        .error (.http (env.pollResp tid i).status)) := by
  refine ⟨?_, ?_, ?_, ?_, ?_, ?_⟩
  · intro script up u tc hS hI hA hcv _
    simp [run_pipeline, hS, hI, hA, hcv]
  · intro script up hS
    simp [run_pipeline, hS]
  · intro script up hS hI
    simp [run_pipeline, hS, hI]
  · intro script up hS hI hA
    simp [run_pipeline, hS, hI, hA]
  · intro iu au hC
    simp [create_video, hC]
  · intro tid i fuel hP
    simp [pollLoop, hP]

/-- Witness for C9: a 404 on the final download still returns its body. -/
theorem download_skips_status_check_witness :
    httpErr (dlFailEnv.downloadResp "http://result.mp4").status = true ∧
    (run_pipeline dlFailEnv "hi" none).1 =
      .ok (dlFailEnv.downloadResp "http://result.mp4").body :=
  ⟨by decide,
   (download_skips_status_check dlFailEnv).1 "hi" none "http://result.mp4"
     [.createTalk "http://img" "http://aud", .pollTalk "talk1" 0]
     (by decide) (by decide) (by decide) rfl (by decide)⟩

end ClaireVideo
